import Mathlib

/-!
Verification of the Camera485 remote-camera image-acquisition engine
(src/projects/Camera485/Camera485.py) against its design specification.

Python byte strings are modelled as `List Nat` (each element one byte value);
Python integers are `Nat`.  The CRC routines are translated from
src/pc/sl3_sim.py (`_add_crc16`, `_add_crc16_reflected`, `_reflect_word`,
`c_crc`) and src/pc/sl3.py (`crc_xmodem`).
-/

namespace Camera485

/-- One shift step of the non-reflected CRC-16 inner loop (body of the
`for i in range(8)` loop of `_add_crc16` in sl3_sim.py).  The Python code
does not mask the accumulator inside the loop; neither do we. -/
def crcShiftStep (poly crc : Nat) : Nat :=
  if crc &&& 0x8000 ≠ 0 then (crc <<< 1) ^^^ poly else crc <<< 1

/-- `_add_crc16(crc, c, poly)` from sl3_sim.py: xor the byte into the high
half, then run the shift step 8 times. -/
def addCrc16 (crc c poly : Nat) : Nat :=
  (crcShiftStep poly)^[8] (crc ^^^ (c <<< 8))

/-- One shift step of the reflected CRC-16 inner loop (`_add_crc16_reflected`). -/
def crcShiftStepReflected (poly crc : Nat) : Nat :=
  if crc &&& 1 ≠ 0 then (crc >>> 1) ^^^ poly else crc >>> 1

/-- `_add_crc16_reflected(crc, c, poly)` from sl3_sim.py. -/
def addCrc16Reflected (crc c poly : Nat) : Nat :=
  (crcShiftStepReflected poly)^[8] (crc ^^^ c)

/-- One step of `_reflect_word`: shift the result left taking the low bit of c. -/
def reflectStep (rc : Nat × Nat) : Nat × Nat :=
  ((rc.1 <<< 1) ||| (rc.2 &&& 1), rc.2 >>> 1)

/-- `_reflect_word(c)` from sl3_sim.py: reverse the 16 low bits. -/
def reflectWord (c : Nat) : Nat :=
  (reflectStep^[16] (0, c)).1

/-- `c_crc(data, polynomial, initial, reflect, invert, reverse)` from sl3_sim.py. -/
def c_crc (data : List Nat) (polynomial initial : Nat) (reflect invert reverse : Bool) : Nat :=
  let crc :=
    if reflect then
      data.foldl (fun crc c => addCrc16Reflected crc c (reflectWord polynomial)) initial
    else
      data.foldl (fun crc c => addCrc16 crc c (polynomial &&& 0xffff)) initial
  let crc2 := if invert then crc ^^^ 0xffff else crc
  let crc3 := if reverse then (crc2 >>> 8) ||| ((crc2 &&& 0xff) <<< 8) else crc2
  crc3 &&& 0xffff

/-- `crc_xmodem(data)` from sl3.py: the non-reflected CRC-16/XMODEM,
polynomial 0x1021, initial value 0, no final xor, no byte reversal. -/
def crc_xmodem (data : List Nat) : Nat :=
  c_crc data 0x1021 0 false false false

/-- Big-endian `int.from_bytes`. -/
def fromBytesBE (bs : List Nat) : Nat :=
  bs.foldl (fun acc b => acc * 256 + b) 0

/-- Big-endian `int.to_bytes(n, 2)` (all call sites pass values below 2^16). -/
def toBytes2 (n : Nat) : List Nat :=
  [n / 256, n % 256]

/-- `FormatCommand(addr, cmd, data)`: marker, address, command byte, big-endian
2-byte payload length, payload, big-endian CRC-16/XMODEM over address..payload. -/
def FormatCommand (addr cmd : Nat) (data : List Nat) : List Nat :=
  let msg := addr :: cmd :: (toBytes2 data.length ++ data)
  let crc := crc_xmodem msg
  0x90 :: 0xEB :: (msg ++ toBytes2 crc)

/-- `CheckCrc(pkt)`: `len(pkt) > 4 and crc_xmodem(pkt[2:-2]) == int.from_bytes(pkt[-2:])`.
The Python slice `pkt[2:-2]` is `(pkt.drop 2).take (pkt.length - 4)` and
`pkt[-2:]` is `pkt.drop (pkt.length - 2)`. -/
def CheckCrc (pkt : List Nat) : Bool :=
  decide (4 < pkt.length) &&
    (crc_xmodem ((pkt.drop 2).take (pkt.length - 4)) == fromBytesBE (pkt.drop (pkt.length - 2)))

/-- The literal sentinel bytes b"Len>JpegBufMaxLen\r\n" the camera sends when a
snapshot does not fit its RAM. -/
def out_of_memory : List Nat :=
  [76, 101, 110, 62, 74, 112, 101, 103, 66, 117, 102, 77, 97, 120, 76, 101, 110, 13, 10]

/-- The receive phase of one attempt of `SendCommand`.  `stream` models the bytes
arriving on the serial port for this attempt (a `port.read n` yields the next
`min n` available bytes).  With a nonzero `expectedLen` the code reads exactly
that many bytes; otherwise it reads a 6-byte header and, only when the header
carries the 0x90 0xEB marker and echoes the request opcode, reads
`min(defaultPacketSize, declared-length) + 2` further bytes. -/
def readReply (stream : List Nat) (expectedLen pktOpcode maxPacketSize : Nat) : List Nat :=
  if expectedLen ≠ 0 then stream.take expectedLen
  else if stream.take 6 ≠ [] ∧ (stream.take 6).take 2 = [0x90, 0xEB] ∧
      (stream.take 6).get? 3 = some pktOpcode then
    stream.take 6 ++
      (stream.drop 6).take (min maxPacketSize (fromBytesBE (((stream.take 6).drop 4).take 2)) + 2)
  else stream.take 6

/-- The acceptance test `SendCommand` applies to a received reply:
`if msg and CheckCrc(msg)` accepts, `elif is_snapshot and msg == out_of_memory`
accepts the sentinel; anything else is retried. -/
def acceptReply (msg : List Nat) (isSnapshot : Bool) : Bool :=
  (!msg.isEmpty && CheckCrc msg) || (isSnapshot && msg == out_of_memory)

/-- The value `SendSnapshot` hands back to `GetPicture`: the out-of-memory
sentinel bytes, a parsed 32-bit total image length, or `None` when the command
exhausted its tries without an accepted reply. -/
inductive SnapResult where
  | noReply : SnapResult
  | oom : SnapResult
  | len : Nat → SnapResult
  deriving DecidableEq, Repr

/-- The exceptions that can escape `GetPicture`.  `typeError` models the Python
`TypeError` raised by ordering a `None` against an `int`; `nameError` models the
`NameError` raised by evaluating the unbound name `state` in `AdjustDelay`. -/
inductive GPError where
  | cameraError : GPError
  | cameraMemoryError : GPError
  | typeError : GPError
  | nameError : GPError
  deriving DecidableEq, Repr

/-- Python `isinstance(e, CameraError)`: `CameraMemoryError` is declared as a
subclass of `CameraError`, so both match an `except CameraError` clause. -/
def GPError.isCameraError : GPError → Bool
  | .cameraError => true
  | .cameraMemoryError => true
  | .typeError => false
  | .nameError => false

/-- The `for resolution, compression in retrySettings` loop of `GetPicture`.
`snap k` is the result of the k-th `SendSnapshot` call of the session (the
primary profile used call 0).  The loop body reassigns `totalLength` and breaks
on `totalLength != out_of_memory and totalLength <= maxPictureSize`; evaluating
that comparison with `totalLength = None` raises `TypeError`.  When no entry
breaks, `totalLength` keeps the value of the last ladder call. -/
def ladderWalk (snap : Nat → SnapResult) (maxPix : Nat) :
    Nat → List (Nat × Nat) → SnapResult → Except GPError SnapResult
  | _, [], t => .ok t
  | k, _ :: rest, _ =>
    match snap k with
    | .oom => ladderWalk snap maxPix (k + 1) rest .oom
    | .noReply => .error .typeError
    | .len n => if n ≤ maxPix then .ok (.len n) else ladderWalk snap maxPix (k + 1) rest (.len n)

/-- The snapshot section of `GetPicture`: primary `SendSnapshot`, the fallback
ladder (entered when `retrySettings` is non-empty and the primary result is the
sentinel or exceeds `maxPictureSize`; comparing a `None` result raises
`TypeError`), then `raise CameraMemoryError` on the sentinel and
`raise CameraError` on a falsy (`None` or 0) length. -/
def snapshotPhase (snap : Nat → SnapResult) (retrySettings : List (Nat × Nat)) (maxPix : Nat) :
    Except GPError Nat :=
  let t0 := snap 0
  let walked : Except GPError SnapResult :=
    if retrySettings.isEmpty then .ok t0
    else
      match t0 with
      | .oom => ladderWalk snap maxPix 1 retrySettings .oom
      | .noReply => .error .typeError
      | .len n => if maxPix < n then ladderWalk snap maxPix 1 retrySettings (.len n) else .ok (.len n)
  match walked with
  | .error e => .error e
  | .ok .oom => .error .cameraMemoryError
  | .ok .noReply => .error .cameraError
  | .ok (.len 0) => .error .cameraError
  | .ok (.len (n + 1)) => .ok (n + 1)

/-- `AdjustDelay`: sends the 0x78 Delay Tune command, then evaluates
`True if pkt or (state == "AUTO") else False`.  `gotReply` abstracts whether
`SendCommand` returned an accepted 10-byte reply.  The name `state` is unbound
in this function (no global of that name exists; it was copied from `TurnLED`
where it is a parameter), so the falsy-`pkt` branch raises `NameError` instead
of returning `False`. -/
def AdjustDelay (gotReply : Bool) : Except GPError Bool :=
  if gotReply then .ok true else .error .nameError

/-- The chunked download loop of `GetPicture`.  `chunk pos n` models
`GetPartOfImage(port, addr, pos, n)` returning the extracted payload bytes
(`[]` for a `None` failure, which raises `CameraError` carrying the byte count
received so far).  Each pass requests `min(totalLength - imageLength,
packetSize)` bytes and advances by the number of bytes actually returned.
The result collects the issued (offset, requested-length) pairs and the bytes
written to the output file. -/
def getPictureLoop (chunk : Nat → Nat → List Nat) (totalLength packetSize : Nat) (pos : Nat) :
    Except Nat (List (Nat × Nat) × List Nat) :=
  if h : pos < totalLength then
    let n := min (totalLength - pos) packetSize
    let data := chunk pos n
    if hd : data.length = 0 then .error pos
    else
      match getPictureLoop chunk totalLength packetSize (pos + data.length) with
      | .error e => .error e
      | .ok (reqs, rest) => .ok ((pos, n) :: reqs, data ++ rest)
  else .ok ([], [])
termination_by totalLength - pos
decreasing_by simp_wf; unfold data n at hd; omega

/-- `GetPicture(port, t, outputFile)`: readiness probe, preparation commands,
snapshot with fallback ladder, chunked download.  `cameraReady` abstracts
`IsCameraReady`; the LED and overlay steps only print and are omitted;
`adjustReply` abstracts whether the Delay Tune command got a reply.  On success
the returned value is `imageLength` paired with the bytes written. -/
def GetPicture (cameraReady adjustReply : Bool) (snap : Nat → SnapResult)
    (retrySettings : List (Nat × Nat)) (maxPix : Nat)
    (chunk : Nat → Nat → List Nat) (packetSize : Nat) : Except GPError (Nat × List Nat) :=
  if !cameraReady then .error .cameraError
  else
    match AdjustDelay adjustReply with
    | .error e => .error e
    | .ok _ =>
      match snapshotPhase snap retrySettings maxPix with
      | .error e => .error e
      | .ok totalLength =>
        match getPictureLoop chunk totalLength packetSize 0 with
        | .error _ => .error .cameraError
        | .ok (_, bytes) => .ok (bytes.length, bytes)

/-- How one pass of the `for _ in range(defaultPowerCycles)` loop ends. -/
inductive LoopExit where
  | success : List Nat → Nat → LoopExit
  | exhausted : Option GPError → Option (List Nat) → LoopExit
  | escaped : GPError → List Nat → LoopExit
  deriving DecidableEq, Repr

/-- The power-cycle loop of `TakePicture`.  `attempts i` gives the outcome of
the i-th `GetPicture` attempt together with the bytes it wrote; each pass
reopens the image file with mode "wb", truncating it, so the file content after
a pass is exactly the bytes that pass wrote.  Python exception dispatch tries
`except CameraError` first; since `CameraMemoryError` subclasses `CameraError`,
both land there (the dedicated `except CameraMemoryError ... break` clause is
unreachable) and the loop continues; any other exception escapes the loop.
`totalRepower += 1` runs only when a pass completes without break or escape;
the second component counts those increments. -/
def loopGo (attempts : Nat → Except GPError Nat × List Nat) :
    Nat → Nat → Option (List Nat) → Option GPError → LoopExit × Nat
  | 0, _, file, exc => (.exhausted exc file, 0)
  | r + 1, i, _, _ =>
    let a := attempts i
    match a.1 with
    | .ok 0 =>
      let res := loopGo attempts r (i + 1) (some a.2) none
      (res.1, res.2 + 1)
    | .ok (n + 1) => (.success a.2 (n + 1), 0)
    | .error e =>
      if e.isCameraError then
        let res := loopGo attempts r (i + 1) (some a.2) (some e)
        (res.1, res.2 + 1)
      else (.escaped e a.2, 0)

/-- The failures `TakePicture` can raise to its caller. -/
inductive TPError where
  | sdCardNotMounted : TPError
  | sdCardLowOnSpace : TPError
  | camera : GPError → TPError
  deriving DecidableEq, Repr

/-- The per-invocation configuration and environment of `TakePicture`. -/
structure TPConfig where
  sdMounted : Bool
  freeSpaceMb : Nat
  txFolderConfigured : Bool
  leavePowerOn : Bool
  powerCycles : Nat
  deriving DecidableEq, Repr

/-- `free_space_limit_take`. -/
def freeSpaceLimitTake : Nat := 64

/-- `free_space_limit_archive`. -/
def freeSpaceLimitArchive : Nat := 256

/-- The observable outcome of one `TakePicture` invocation: the result or
raised error, the increments applied to the global statistics counters, and the
file contents left at the primary image path and in the transmission folder. -/
structure TPOut where
  result : Option TPError
  failsInc : Nat
  repowerInc : Nat
  picturesInc : Nat
  noSDInc : Nat
  primaryFile : Option (List Nat)
  txFile : Option (List Nat)
  deriving DecidableEq, Repr

/-- `TakePicture(resolution, compression, retry_settings)`: storage
preconditions (raised before the `try`, hence not counted in `totalFails`),
the power-cycle loop, re-raising the stored exception, and on success the
`totalPictures` increment, the copy to the transmission folder, and the
space-low delete-and-raise; every exception inside the `try` hits
`except Exception: totalFails += 1`.  The CRC file-renaming step only changes
the file name and is omitted. -/
def TakePicture (cfg : TPConfig) (attempts : Nat → Except GPError Nat × List Nat) : TPOut :=
  if !cfg.sdMounted then
    { result := some .sdCardNotMounted, failsInc := 0, repowerInc := 0, picturesInc := 0,
      noSDInc := 1, primaryFile := none, txFile := none }
  else if cfg.freeSpaceMb < freeSpaceLimitTake then
    { result := some .sdCardLowOnSpace, failsInc := 0, repowerInc := 0, picturesInc := 0,
      noSDInc := 0, primaryFile := none, txFile := none }
  else if !cfg.txFolderConfigured && decide (cfg.freeSpaceMb < freeSpaceLimitArchive) then
    { result := some .sdCardLowOnSpace, failsInc := 0, repowerInc := 0, picturesInc := 0,
      noSDInc := 0, primaryFile := none, txFile := none }
  else
    match loopGo attempts cfg.powerCycles 0 none none with
    | (.escaped e file, rp) =>
      { result := some (.camera e), failsInc := 1, repowerInc := rp, picturesInc := 0,
        noSDInc := 0, primaryFile := some file, txFile := none }
    | (.exhausted (some e) file, rp) =>
      { result := some (.camera e), failsInc := 1, repowerInc := rp, picturesInc := 0,
        noSDInc := 0, primaryFile := file, txFile := none }
    | (.exhausted none file, rp) =>
      { result := none, failsInc := 0, repowerInc := rp, picturesInc := 0,
        noSDInc := 0, primaryFile := file, txFile := none }
    | (.success file _, rp) =>
      if cfg.txFolderConfigured then
        if cfg.freeSpaceMb < freeSpaceLimitArchive then
          { result := some .sdCardLowOnSpace, failsInc := 1, repowerInc := rp, picturesInc := 1,
            noSDInc := 0, primaryFile := none, txFile := some file }
        else
          { result := none, failsInc := 0, repowerInc := rp, picturesInc := 1,
            noSDInc := 0, primaryFile := some file, txFile := some file }
      else
        { result := none, failsInc := 0, repowerInc := rp, picturesInc := 1,
          noSDInc := 0, primaryFile := some file, txFile := none }

/-! ## Theorems -/

/-- The final `& 0xffff` of `c_crc` keeps every CRC below 2^16. -/
lemma crc_xmodem_lt (data : List Nat) : crc_xmodem data < 65536 := by
  have h : crc_xmodem data =
      (data.foldl (fun crc c => addCrc16 crc c (0x1021 &&& 0xffff)) 0) &&& 0xffff := by
    simp [crc_xmodem, c_crc]
  have h2 : (data.foldl (fun crc c => addCrc16 crc c (0x1021 &&& 0xffff)) 0) &&& 0xffff ≤ 0xffff :=
    Nat.and_le_right
  omega

/-- `int.from_bytes` inverts `int.to_bytes(_, 2)` below 2^16. -/
lemma fromBytesBE_toBytes2 (n : Nat) (h : n < 65536) : fromBytesBE (toBytes2 n) = n := by
  simp [fromBytesBE, toBytes2]
  omega

/-- Any packet of shape marker-byte, marker-byte, body, CRC-16(body) passes `CheckCrc`. -/
lemma checkCrc_of_frame (m1 m2 : Nat) (msg : List Nat) (hm : 0 < msg.length) :
    CheckCrc (m1 :: m2 :: (msg ++ toBytes2 (crc_xmodem msg))) = true := by
  have hcrc : crc_xmodem msg < 65536 := crc_xmodem_lt msg
  have hassoc : m1 :: m2 :: (msg ++ toBytes2 (crc_xmodem msg)) =
      (m1 :: m2 :: msg) ++ toBytes2 (crc_xmodem msg) := by simp
  rw [hassoc]
  unfold CheckCrc
  have hlen : ((m1 :: m2 :: msg) ++ toBytes2 (crc_xmodem msg)).length = msg.length + 4 := by
    simp [toBytes2]
  rw [hlen]
  have hdrop2 : ((m1 :: m2 :: msg) ++ toBytes2 (crc_xmodem msg)).drop 2 =
      msg ++ toBytes2 (crc_xmodem msg) := by
    rw [List.drop_append_of_le_length (by simp)]
    rfl
  rw [hdrop2]
  have htake : (msg ++ toBytes2 (crc_xmodem msg)).take (msg.length + 4 - 4) = msg := by
    have h4 : msg.length + 4 - 4 = msg.length := by omega
    rw [h4, List.take_left]
  rw [htake]
  have hdropl : ((m1 :: m2 :: msg) ++ toBytes2 (crc_xmodem msg)).drop (msg.length + 4 - 2) =
      toBytes2 (crc_xmodem msg) := by
    have h2 : msg.length + 4 - 2 = (m1 :: m2 :: msg).length := by simp
    rw [h2, List.drop_left]
  rw [hdropl, fromBytesBE_toBytes2 _ hcrc]
  rw [decide_eq_true (by omega)]
  simp

set_option maxRecDepth 8000 in
/-- C9: `crc_xmodem` is the non-reflected CRC-16/XMODEM (polynomial 0x1021,
initial value 0, no final xor, no byte reversal), a pure total function on byte
sequences with a 16-bit result, and it satisfies the reference vector
`crc_xmodem("123456789") = 0x31C3`. -/
theorem crc_xmodem_reference_vector :
    crc_xmodem [0x31, 0x32, 0x33, 0x34, 0x35, 0x36, 0x37, 0x38, 0x39] = 0x31C3 ∧
    (∀ data : List Nat, crc_xmodem data = c_crc data 0x1021 0 false false false) ∧
    ∀ data : List Nat, crc_xmodem data < 65536 := by
  exact ⟨by decide, fun data => rfl, fun data => crc_xmodem_lt data⟩

/-- C8 counterexample: the 5-byte sequence 90 EB 00 00 00 is shorter than 6
bytes yet `CheckCrc` accepts it (the length guard only requires more than 4
bytes, and the CRC over the single byte 00 is 0000). -/
theorem checkCrc_five_byte_accepted :
    ([0x90, 0xEB, 0x00, 0x00, 0x00] : List Nat).length < 6 ∧
    CheckCrc [0x90, 0xEB, 0x00, 0x00, 0x00] = true := by decide

/-- C8 (amended): every byte sequence shorter than 5 bytes is rejected by reply
validation — `CheckCrc` demands strictly more than 4 bytes — and `CheckCrc` is
a total function, so decoding never crashes; the actual minimum length is 5,
not the 6 the claim states. -/
theorem checkCrc_too_short (pkt : List Nat) (h : pkt.length < 5) : CheckCrc pkt = false := by
  unfold CheckCrc
  rw [decide_eq_false (by omega)]
  rfl

/-- Witness for `checkCrc_too_short` at a concrete 4-byte input. -/
theorem checkCrc_too_short_witness :
    ([0x90, 0xEB, 0x00, 0x00] : List Nat).length < 5 ∧
    CheckCrc [0x90, 0xEB, 0x00, 0x00] = false :=
  ⟨by decide, checkCrc_too_short [0x90, 0xEB, 0x00, 0x00] (by decide)⟩

/-- C3 (code bug): failure of the 0x78 Delay Tune command is fatal, not
non-fatal.  When `SendCommand` yields no accepted reply, `AdjustDelay`
evaluates `pkt or (state == "AUTO")` with `pkt = None`; `state` is an unbound
name there, so a `NameError` is raised and propagates out of `GetPicture`
before the snapshot step runs — even when every later step would succeed —
instead of returning a falsy value and continuing. -/
theorem adjustDelay_fatal :
    AdjustDelay false = .error .nameError ∧
    AdjustDelay true = .ok true ∧
    GetPicture true false (fun _ => .len 3) [] 450000 (fun _ n => List.replicate n 0) 8192 =
      .error .nameError ∧
    GetPicture true true (fun _ => .len 3) [] 450000 (fun _ n => List.replicate n 0) 8192 =
      .ok (3, [0, 0, 0]) := by
  refine ⟨rfl, rfl, rfl, ?_⟩
  simp [GetPicture, AdjustDelay, snapshotPhase, getPictureLoop]

/-- C6 counterexample: candidate replies whose first two bytes are not
0x90 0xEB are nonetheless accepted by the command layer whenever their trailing
two bytes match the CRC of bytes 2..len-3 — both in a fixed-length read
(expectedLen = 5) and in an unknown-length read (expectedLen = 0). -/
theorem badMarker_accepted :
    ([0x00, 0x00, 0x00, 0x00, 0x00] : List Nat).take 2 ≠ [0x90, 0xEB] ∧
    acceptReply (readReply [0x00, 0x00, 0x00, 0x00, 0x00] 5 0x01 8192) false = true ∧
    ([0x00, 0x00, 0x00, 0x00, 0x00, 0x00] : List Nat).take 2 ≠ [0x90, 0xEB] ∧
    acceptReply (readReply [0x00, 0x00, 0x00, 0x00, 0x00, 0x00] 0 0x01 8192) false = true := by
  decide

/-- C6 (amended): the 2-byte start marker is verified only in the unknown-length
read path, where a bad marker stops the read at the 6-byte header (no payload
continuation is read); the acceptance check itself (`CheckCrc`) never inspects
the marker, so a bad-marker reply can still be accepted. -/
theorem readReply_bad_marker_gate (stream : List Nat) (opcode maxPkt : Nat)
    (h : (stream.take 6).take 2 ≠ [0x90, 0xEB]) :
    readReply stream 0 opcode maxPkt = stream.take 6 := by
  unfold readReply
  rw [if_neg (by simp), if_neg (fun hc => h hc.2.1)]

/-- Witness for `readReply_bad_marker_gate` at a concrete 8-byte stream. -/
theorem readReply_bad_marker_gate_witness :
    (([1, 2, 3, 4, 5, 6, 7, 8] : List Nat).take 6).take 2 ≠ [0x90, 0xEB] ∧
    readReply [1, 2, 3, 4, 5, 6, 7, 8] 0 0x40 8192 = [1, 2, 3, 4, 5, 6] :=
  ⟨by decide, by rw [readReply_bad_marker_gate [1, 2, 3, 4, 5, 6, 7, 8] 0x40 8192 (by decide)]; rfl⟩

/-- C1 (code bug): a session failing with `CameraMemoryError` is still retried
through the whole power-cycle ladder.  `except CameraError` is listed before
`except CameraMemoryError` and `CameraMemoryError` subclasses `CameraError`, so
the break-carrying clause is unreachable: with 3 power cycles configured and
every attempt raising `CameraMemoryError`, all 3 attempts run and `totalRepower`
is incremented 3 times, instead of the loop exiting after the first attempt. -/
theorem takePicture_memoryError_power_cycled :
    GPError.isCameraError .cameraMemoryError = true ∧
    TakePicture ⟨true, 300, true, false, 3⟩ (fun _ => (.error .cameraMemoryError, [])) =
      { result := some (.camera .cameraMemoryError), failsInc := 1, repowerInc := 3,
        picturesInc := 0, noSDInc := 0, primaryFile := some [], txFile := none } :=
  ⟨rfl, rfl⟩

/-- C2 (code bug): when a fallback ladder is configured and `SendSnapshot`
returns `None`, the guard `totalLength > maxPictureSize` compares `None` with an
`int` and raises `TypeError`, not `CameraError`; `TypeError` does not match the
`except CameraError` clause of the power-cycle loop, so the session aborts after
a single attempt with no power-cycle retries.  Only with an empty ladder does
the claimed `CameraError` (no-snapshot-reply) path run. -/
theorem noSnapshotReply_ladder_typeError :
    snapshotPhase (fun _ => .noReply) [(16, 3)] 450000 = .error .typeError ∧
    snapshotPhase (fun _ => .noReply) [] 450000 = .error .cameraError ∧
    GetPicture true true (fun _ => .noReply) [(16, 3)] 450000 (fun _ _ => []) 8192 =
      .error .typeError ∧
    TakePicture ⟨true, 300, true, false, 3⟩ (fun _ => (.error .typeError, [])) =
      { result := some (.camera .typeError), failsInc := 1, repowerInc := 0,
        picturesInc := 0, noSDInc := 0, primaryFile := some [], txFile := none } :=
  ⟨rfl, rfl, rfl, rfl⟩

/-- C7: for every address and opcode below 256 and payload shorter than 2^16,
the frame built by `FormatCommand` passes `CheckCrc`, and the field extractions
the command layer performs recover the address (byte 2), the opcode (byte 3),
the declared length (bytes 4..5, big-endian) and the payload (`pkt[6:-2]`)
exactly — encode followed by decode is the identity. -/
theorem frame_roundtrip (a o : Nat) (p : List Nat)
    (ha : a < 256) (ho : o < 256) (hp : p.length < 65536) :
    CheckCrc (FormatCommand a o p) = true ∧
    (FormatCommand a o p)[2]? = some a ∧
    (FormatCommand a o p)[3]? = some o ∧
    fromBytesBE (((FormatCommand a o p).drop 4).take 2) = p.length ∧
    ((FormatCommand a o p).drop 6).take ((FormatCommand a o p).length - 8) = p := by
  have hF : FormatCommand a o p =
      0x90 :: 0xEB :: ((a :: o :: (toBytes2 p.length ++ p)) ++
        toBytes2 (crc_xmodem (a :: o :: (toBytes2 p.length ++ p)))) := by
    simp [FormatCommand]
  refine ⟨?_, ?_, ?_, ?_, ?_⟩
  · rw [hF]
    exact checkCrc_of_frame 0x90 0xEB _ (by simp)
  · rw [hF]; rfl
  · rw [hF]; rfl
  · rw [hF]
    show fromBytesBE (toBytes2 p.length) = p.length
    exact fromBytesBE_toBytes2 _ hp
  · have hfl : (FormatCommand a o p).length = p.length + 8 := by
      rw [hF]; simp [toBytes2]
    rw [hfl]
    have h8 : p.length + 8 - 8 = p.length := by omega
    rw [h8, hF]
    show (p ++ toBytes2 (crc_xmodem (a :: o :: (toBytes2 p.length ++ p)))).take p.length = p
    exact List.take_left p _

/-- Closed form of the download loop under an exact-chunk camera: starting at
`pos` with `m = L - pos` bytes to go, the loop returns the request list
`[(pos, min C (L-pos)), (pos+C, ...), ...]` of length `ceil(m/C)` and writes
exactly `m` bytes. -/
lemma getPictureLoop_go (chunk : Nat → Nat → List Nat) (L C : Nat) (hC : 0 < C)
    (hx : ∀ p n, (chunk p n).length = n) :
    ∀ m pos, L - pos = m →
      ∃ bytes, getPictureLoop chunk L C pos =
          Except.ok ((List.range ((m + C - 1) / C)).map
            (fun i => (pos + i * C, min C (L - (pos + i * C)))), bytes) ∧
        bytes.length = m := by
  intro m
  induction m using Nat.strong_induction_on with
  | _ m ih =>
    intro pos hm
    by_cases h : pos < L
    · have hm0 : 0 < m := by omega
      have hdl : (chunk pos (min (L - pos) C)).length = min (L - pos) C := hx _ _
      have hn0 : 0 < min (L - pos) C := by omega
      obtain ⟨bytes, hrec, hblen⟩ :=
        ih (m - min (L - pos) C) (by omega) (pos + min (L - pos) C) (by omega)
      have hlist : (pos, min (L - pos) C) ::
          (List.range ((m - min (L - pos) C + C - 1) / C)).map
            (fun i => (pos + min (L - pos) C + i * C,
              min C (L - (pos + min (L - pos) C + i * C)))) =
          (List.range ((m + C - 1) / C)).map
            (fun i => (pos + i * C, min C (L - (pos + i * C)))) := by
        by_cases hcm : C ≤ m
        · have hnC : min (L - pos) C = C := by omega
          rw [hnC]
          have e1 : m - C + C - 1 = m - 1 := by omega
          have e2 : (m + C - 1) / C = (m - 1) / C + 1 := by
            have e3 : m + C - 1 = (m - 1) + C := by omega
            rw [e3, Nat.add_div_right _ hC]
          rw [e1, e2, List.range_succ_eq_map]
          simp only [List.map_cons, List.map_map]
          congr 1
          · have e6 : min C (L - (pos + 0 * C)) = C := Nat.min_eq_left (by omega)
            simp only [Nat.zero_mul, Nat.add_zero] at e6 ⊢
            rw [e6]
          · refine List.map_congr_left ?_
            intro i _
            simp only [Function.comp]
            have e4 : pos + C + i * C = pos + (i + 1) * C := by ring
            rw [e4]
        · have hnm : min (L - pos) C = m := by omega
          have hc1 : (m + C - 1) / C = 1 := Nat.div_eq_of_lt_le (by omega) (by omega)
          have hc0 : (m - min (L - pos) C + C - 1) / C = 0 := by
            rw [hnm]
            have e5 : m - m + C - 1 = C - 1 := by omega
            rw [e5]
            exact Nat.div_eq_of_lt (by omega)
          have hr1 : List.range 1 = [0] := rfl
          have hr0 : List.range 0 = [] := rfl
          rw [hc0, hc1, hnm, hr1, hr0]
          simp only [List.map_cons, List.map_nil, Nat.zero_mul, Nat.add_zero]
          have e7 : C ⊓ (L - pos) = m := by omega
          rw [e7]
      refine ⟨chunk pos (min (L - pos) C) ++ bytes, ?_, by simp [hdl, hblen]; omega⟩
      rw [getPictureLoop, dif_pos h]
      simp only [hdl]
      rw [dif_neg (by omega)]
      rw [hrec]
      dsimp only
      rw [hlist]
    · have hm0 : m = 0 := by omega
      refine ⟨[], ?_, by simp [hm0]⟩
      rw [getPictureLoop, dif_neg h]
      have hc2 : (m + C - 1) / C = 0 := by
        rw [hm0]
        exact Nat.div_eq_of_lt (by omega)
      rw [hc2]
      simp

/-- C4: with declared total length L > 0, negotiated chunk size C > 0, and a
camera returning exactly the requested bytes for every Get Chunk command, the
download loop issues exactly ceil(L/C) requests, the i-th at offset i*C asking
for min(C, L - i*C) bytes — offsets strictly increasing and non-overlapping —
with every request length positive and at most C, offset + length never
exceeding L, and the bytes written to the output file totalling exactly L. -/
theorem download_loop_spec (L C : Nat) (chunk : Nat → Nat → List Nat)
    (hL : 0 < L) (hC : 0 < C) (hx : ∀ p n, (chunk p n).length = n) :
    ∃ reqs bytes, getPictureLoop chunk L C 0 = Except.ok (reqs, bytes) ∧
      reqs.length = (L + C - 1) / C ∧
      (∀ i, i < reqs.length → reqs[i]? = some (i * C, min C (L - i * C))) ∧
      (∀ r ∈ reqs, 0 < r.2 ∧ r.2 ≤ C ∧ r.1 + r.2 ≤ L) ∧
      bytes.length = L := by
  obtain ⟨bytes, heq, hlen⟩ := getPictureLoop_go chunk L C hC hx L 0 (by omega)
  have hready : ∀ i, i < (L + C - 1) / C → i * C < L := by
    intro i hi
    have h1 : (i + 1) * C ≤ L + C - 1 :=
      (Nat.le_div_iff_mul_le hC).mp (Nat.succ_le_of_lt hi)
    rw [Nat.succ_mul] at h1
    omega
  refine ⟨_, bytes, heq, ?_, ?_, ?_, hlen⟩
  · simp
  · intro i hi
    simp only [List.length_map, List.length_range] at hi
    rw [List.getElem?_map, List.getElem?_range hi]
    simp
  · intro r hr
    simp only [List.mem_map, List.mem_range] at hr
    obtain ⟨i, hi, hri⟩ := hr
    have hiL : i * C < L := hready i (by omega)
    refine ⟨?_, ?_, ?_⟩
    · rw [← hri]; simp; omega
    · rw [← hri]; simp
    · rw [← hri]; simp; omega

/-- Witness for `download_loop_spec` with L = 5, C = 2 and a camera that
returns the requested number of zero bytes for every chunk. -/
theorem download_loop_spec_witness :
    ((0:Nat) < 5 ∧ (0:Nat) < 2 ∧
      ∀ p n : Nat, (List.replicate n (0:Nat)).length = n) ∧
    (∃ reqs bytes,
      getPictureLoop (fun _ k => List.replicate k (0:Nat)) 5 2 0 = Except.ok (reqs, bytes) ∧
      reqs.length = (5 + 2 - 1) / 2 ∧
      (∀ i, i < reqs.length → reqs[i]? = some (i * 2, min 2 (5 - i * 2))) ∧
      (∀ r ∈ reqs, 0 < r.2 ∧ r.2 ≤ 2 ∧ r.1 + r.2 ≤ 5) ∧
      bytes.length = 5) :=
  ⟨⟨by decide, by decide, fun _ n => by simp⟩,
    download_loop_spec 5 2 (fun _ k => List.replicate k 0) (by decide) (by decide)
      (fun _ n => by simp)⟩

/-- Witness for `frame_roundtrip`: address 1, opcode 0x48, payload 05 06 07. -/
theorem frame_roundtrip_witness :
    (1 < 256 ∧ 72 < 256 ∧ ([5, 6, 7] : List Nat).length < 65536) ∧
    (CheckCrc (FormatCommand 1 72 [5, 6, 7]) = true ∧
     (FormatCommand 1 72 [5, 6, 7])[2]? = some 1 ∧
     (FormatCommand 1 72 [5, 6, 7])[3]? = some 72 ∧
     fromBytesBE (((FormatCommand 1 72 [5, 6, 7]).drop 4).take 2) = 3 ∧
     ((FormatCommand 1 72 [5, 6, 7]).drop 6).take ((FormatCommand 1 72 [5, 6, 7]).length - 8) =
       [5, 6, 7]) :=
  ⟨⟨by decide, by decide, by decide⟩,
    frame_roundtrip 1 72 [5, 6, 7] (by decide) (by decide) (by decide)⟩

/-- C10: every pass of the power-cycle loop reopens the output image file in
write-truncate ("wb") mode before `GetPicture` runs, so bytes received during a
failed earlier attempt never remain in the file: when the loop ends in success,
the file holds exactly the bytes written by the single successful attempt k (in
order), every earlier attempt having returned a falsy image length or raised a
`CameraError`-class exception. -/
theorem loop_success_single_attempt (attempts : Nat → Except GPError Nat × List Nat)
    (n i : Nat) (f : Option (List Nat)) (e : Option GPError)
    (file : List Nat) (len rp : Nat)
    (h : loopGo attempts n i f e = (.success file len, rp)) :
    ∃ k, i ≤ k ∧ k < i + n ∧ (attempts k).1 = Except.ok len ∧ 0 < len ∧
      file = (attempts k).2 ∧
      ∀ j, i ≤ j → j < k →
        (attempts j).1 = Except.ok 0 ∨
        ∃ er, (attempts j).1 = Except.error er ∧ er.isCameraError = true := by
  induction n generalizing i f e rp with
  | zero => simp [loopGo] at h
  | succ n ih =>
    simp only [loopGo] at h
    rcases ha : (attempts i).1 with er | v
    · rw [ha] at h
      dsimp only at h
      by_cases he : er.isCameraError
      · rw [if_pos he] at h
        rcases hres : loopGo attempts n (i + 1) (some (attempts i).2) (some er) with ⟨ex, rp2⟩
        rw [hres] at h
        simp only [Prod.mk.injEq] at h
        obtain ⟨h1, h2⟩ := h
        subst h1
        obtain ⟨k, hk1, hk2, hk3, hk4, hk5, hk6⟩ := ih (i + 1) (some (attempts i).2) (some er) rp2 hres
        refine ⟨k, by omega, by omega, hk3, hk4, hk5, ?_⟩
        intro j hj1 hj2
        by_cases hji : j = i
        · subst hji
          exact Or.inr ⟨er, ha, by simpa using he⟩
        · exact hk6 j (by omega) hj2
      · rw [if_neg he] at h
        simp at h
    · rw [ha] at h
      cases v with
      | zero =>
        dsimp only at h
        rcases hres : loopGo attempts n (i + 1) (some (attempts i).2) none with ⟨ex, rp2⟩
        rw [hres] at h
        simp only [Prod.mk.injEq] at h
        obtain ⟨h1, h2⟩ := h
        subst h1
        obtain ⟨k, hk1, hk2, hk3, hk4, hk5, hk6⟩ := ih (i + 1) (some (attempts i).2) none rp2 hres
        refine ⟨k, by omega, by omega, hk3, hk4, hk5, ?_⟩
        intro j hj1 hj2
        by_cases hji : j = i
        · subst hji
          exact Or.inl ha
        · exact hk6 j (by omega) hj2
      | succ v =>
        dsimp only at h
        simp only [Prod.mk.injEq, LoopExit.success.injEq] at h
        obtain ⟨⟨hfile, hlen⟩, hrp⟩ := h
        refine ⟨i, by omega, by omega, ?_, by omega, hfile.symm, ?_⟩
        · rw [ha, hlen]
        · intro j hj1 hj2
          omega

/-- Witness for `loop_success_single_attempt`: attempt 0 raises `CameraError`
after writing two bytes, attempt 1 succeeds with two different bytes; the final
file is attempt 1's bytes. -/
theorem loop_success_single_attempt_witness :
    (loopGo
        (fun k => if k = 0 then (Except.error GPError.cameraError, [9, 9])
                  else (Except.ok 2, [5, 6]))
        3 0 none none = (.success [5, 6] 2, 1)) ∧
    ∃ k, 0 ≤ k ∧ k < 0 + 3 ∧
      ((fun k => if k = 0 then (Except.error GPError.cameraError, [9, 9])
                 else (Except.ok 2, ([5, 6] : List Nat))) k).1 = Except.ok 2 ∧ (0:Nat) < 2 ∧
      ([5, 6] : List Nat) =
        ((fun k => if k = 0 then (Except.error GPError.cameraError, [9, 9])
                   else (Except.ok 2, ([5, 6] : List Nat))) k).2 ∧
      ∀ j, 0 ≤ j → j < k →
        ((fun k => if k = 0 then (Except.error GPError.cameraError, [9, 9])
                   else (Except.ok 2, ([5, 6] : List Nat))) j).1 = Except.ok 0 ∨
        ∃ er, ((fun k => if k = 0 then (Except.error GPError.cameraError, [9, 9])
                         else (Except.ok 2, ([5, 6] : List Nat))) j).1 = Except.error er ∧
          er.isCameraError = true :=
  ⟨rfl, loop_success_single_attempt _ 3 0 none none [5, 6] 2 1 rfl⟩

/-- C5 counterexample: SD mounted, 100 MB free (above the 64 MB take threshold
but below the 256 MB archive threshold), transmission folder configured, one
power cycle, and a successful capture of [1,2,3,4,5].  The claim says the file
remains at its primary path and `totalFails` is not incremented; the code
deletes the primary file and increments `totalFails` by 1. -/
theorem tx_space_low_fails_counted :
    (TakePicture ⟨true, 100, true, false, 1⟩ (fun _ => (.ok 5, [1, 2, 3, 4, 5]))).failsInc = 1 ∧
    (TakePicture ⟨true, 100, true, false, 1⟩ (fun _ => (.ok 5, [1, 2, 3, 4, 5]))).primaryFile =
      none :=
  ⟨rfl, rfl⟩

/-- C5 (amended): when the capture succeeds, a transmission folder is
configured, and the measured free space is at least the take threshold but
below the archive threshold, the space-low error is raised only after the image
was captured and copied to the transmission folder (`totalPictures` is
incremented and the transmission copy holds the image bytes), and it triggers
no further power-cycle attempts; however the code deletes the file from its
primary path before raising, and the generic exception handler increments
`totalFails` by 1. -/
theorem tx_space_low_behavior (cfg : TPConfig) (attempts : Nat → Except GPError Nat × List Nat)
    (file : List Nat) (len rp : Nat)
    (hsd : cfg.sdMounted = true) (htx : cfg.txFolderConfigured = true)
    (htake : freeSpaceLimitTake ≤ cfg.freeSpaceMb) (harch : cfg.freeSpaceMb < freeSpaceLimitArchive)
    (hloop : loopGo attempts cfg.powerCycles 0 none none = (.success file len, rp)) :
    TakePicture cfg attempts =
      { result := some .sdCardLowOnSpace, failsInc := 1, repowerInc := rp, picturesInc := 1,
        noSDInc := 0, primaryFile := none, txFile := some file } := by
  unfold TakePicture
  rw [hsd, htx, hloop]
  rw [if_neg (by simp)]
  rw [if_neg (Nat.not_lt.mpr htake)]
  rw [if_neg (by simp)]
  dsimp only
  rw [if_pos harch]
  rw [if_pos rfl]

/-- Witness for `tx_space_low_behavior` at a concrete configuration. -/
theorem tx_space_low_behavior_witness :
    ((⟨true, 100, true, false, 1⟩ : TPConfig).sdMounted = true ∧
     (⟨true, 100, true, false, 1⟩ : TPConfig).txFolderConfigured = true ∧
     freeSpaceLimitTake ≤ (⟨true, 100, true, false, 1⟩ : TPConfig).freeSpaceMb ∧
     (⟨true, 100, true, false, 1⟩ : TPConfig).freeSpaceMb < freeSpaceLimitArchive ∧
     loopGo (fun _ => (.ok 5, [1, 2, 3, 4, 5]))
       (⟨true, 100, true, false, 1⟩ : TPConfig).powerCycles 0 none none =
         (.success [1, 2, 3, 4, 5] 5, 0)) ∧
    TakePicture ⟨true, 100, true, false, 1⟩ (fun _ => (.ok 5, [1, 2, 3, 4, 5])) =
      { result := some .sdCardLowOnSpace, failsInc := 1, repowerInc := 0, picturesInc := 1,
        noSDInc := 0, primaryFile := none, txFile := some [1, 2, 3, 4, 5] } :=
  ⟨⟨rfl, rfl, by decide, by decide, rfl⟩,
    tx_space_low_behavior ⟨true, 100, true, false, 1⟩ (fun _ => (.ok 5, [1, 2, 3, 4, 5]))
      [1, 2, 3, 4, 5] 5 0 rfl rfl (by decide) (by decide) rfl⟩

end Camera485
